import Mathlib

/-!
Shallow embedding of `object_pool.py`: the `ObjectPool` engine (member
stats, validity policy, borrow/release, eager fill, destroy), its
`Executor` context manager, and the `SingletonMetaPoolRegistry`
metaclass registry.

Modelling conventions:
* Timestamps (`datetime.datetime.now()`) are natural numbers; every
  operation takes the sample(s) of the clock it reads as explicit
  parameters.  `internal_invalid_check` reads the clock twice in the
  source (once inside `_get_expiry_time` when `created_at` is absent,
  once at the comparison with `expires_at`), so it takes two samples
  `tSample ≤ tNow`; the pool-level operations instantiate both with the
  single instant `now` at which the operation runs.
* Pool members are opaque resource objects; fabrication
  (`__create_new_instance`, i.e. `create_func()` or `klass()`) is
  modelled as allocation of a fresh identifier from a counter, so each
  fabricated member is a new instance.
* The cleanup hook is modelled by a flag `has_cleanup_func` (is a
  callable provided?) together with a log `cleanup_log` of the
  (member, stats) pairs it was invoked on, in invocation order.
* The `queue.Queue` is a FIFO list: the head is the next element
  `get()` returns and `put` appends at the tail.
* Python classes are modelled as `Klass` records carrying an identity
  and a `__name__`; the registry dictionary is an association list
  keyed by that name.  Pool-engine instances are `PoolRec` records
  carrying an identity `pid` allocated from the registry's counter.
-/

/-- Member stats dictionary produced by `ObjectPool._get_default_stats`:
keys `count`, `new`, `created_at`, `last_used`.  `created_at` is
optional because `_internal_invalid_check` reads it with
`member_stats.get('created_at', None)`. -/
structure MemberStats where
  count : Nat
  new : Bool
  created_at : Option Nat
  last_used : Nat
deriving DecidableEq, Repr

/-- A Python class passed to the pool: `id` is its object identity,
`name` its `__name__`. -/
structure Klass where
  id : Nat
  name : String
deriving DecidableEq, Repr

/-- Pool configuration, the attributes stored by `ObjectPool.__init__`:
`max_pool_object`, `max_reusable_count`, `expire_in_secs`,
`pre_check`, `post_check`, the resolved optional hooks and `lazy`.
`check_func` is the resolved validation hook (caller-supplied
`check_func` or the class's `check_invalid`); `has_cleanup_func`
records whether a cleanup hook was resolved; member fabrication
(`create_func` or default construction) is abstracted as fresh-id
allocation, see the module docstring. -/
structure PoolConfig where
  max_pool_object : Int
  max_reusable_count : Nat
  expire_in_secs : Nat
  check_func : Option (Nat → MemberStats → Bool)
  has_cleanup_func : Bool
  lazy : Bool
  pre_check : Bool
  post_check : Bool

/-- State of one `ObjectPool` instance: the class it pools, its
configuration, the FIFO queue `self.__pool`, the fresh-instance
allocation counter, and the log of cleanup-hook invocations. -/
structure PoolState where
  klass : Klass
  cfg : PoolConfig
  pool : List (Nat × MemberStats)
  next_instance : Nat
  cleanup_log : List (Nat × MemberStats)

/-- `ObjectPool._get_default_stats`: fresh stats for a fabricated
member, `count = 0`, the given `new` flag, and both timestamps `now`. -/
def get_default_stats (new : Bool) (now : Nat) : MemberStats :=
  { count := 0, new := new, created_at := some now, last_used := now }

/-- `ObjectPool._get_expiry_time`: `created_at + expire_in_secs` when
`created_at` is present, otherwise the current clock sample. -/
def get_expiry_time (cfg : PoolConfig) (created_at : Option Nat) (tSample : Nat) : Nat :=
  match created_at with
  | some c => c + cfg.expire_in_secs
  | none => tSample

/-- `ObjectPool._internal_invalid_check`: invalid when the reuse count
exceeds a nonzero `max_reusable_count`, or a nonzero `expire_in_secs`
puts the expiry time strictly before the current time.  `tSample` is
the clock sample taken inside `_get_expiry_time`, `tNow` the sample
taken at the comparison. -/
def internal_invalid_check (cfg : PoolConfig) (stats : MemberStats)
    (tSample tNow : Nat) : Bool :=
  let expires_at := get_expiry_time cfg stats.created_at tSample
  if cfg.max_reusable_count ≠ 0 ∧ cfg.max_reusable_count < stats.count then true
  else if cfg.expire_in_secs ≠ 0 ∧ expires_at < tNow then true
  else false

/-- The full invalidity decision of `ObjectPool.__check_and_get_member`:
the caller-supplied `check_func` (false when absent) or the internal
check. -/
def is_invalid_member (cfg : PoolConfig) (member : Nat) (stats : MemberStats)
    (tSample tNow : Nat) : Bool :=
  (match cfg.check_func with
   | some f => f member stats
   | none => false) || internal_invalid_check cfg stats tSample tNow

/-- `ObjectPool.__member_cleanup`: invoke the cleanup hook when one is
provided (recorded in the log), otherwise do nothing. -/
def member_cleanup (s : PoolState) (member : Nat) (stats : MemberStats) : PoolState :=
  if s.cfg.has_cleanup_func then
    { s with cleanup_log := s.cleanup_log ++ [(member, stats)] }
  else s

/-- `ObjectPool.__update_member_stats`: advance a valid member's stats,
incrementing `count`, clearing `new`, stamping `last_used`. -/
def update_member_stats (stats : MemberStats) (now : Nat) : MemberStats :=
  { stats with count := stats.count + 1, new := false, last_used := now }

/-- `ObjectPool.__cleanup_and_get_member`: clean up the invalid member,
fabricate a replacement and give it fresh stats with `new = False`. -/
def cleanup_and_get_member (s : PoolState) (member : Nat) (stats : MemberStats)
    (now : Nat) : Nat × MemberStats × PoolState :=
  let s1 := member_cleanup s member stats
  (s1.next_instance, get_default_stats false now,
    { s1 with next_instance := s1.next_instance + 1 })

/-- `ObjectPool.__check_and_get_member`: replace the member when the
validity policy judges it invalid, otherwise advance its stats. -/
def check_and_get_member (s : PoolState) (member : Nat) (stats : MemberStats)
    (now : Nat) : Nat × MemberStats × PoolState :=
  if is_invalid_member s.cfg member stats now now then
    cleanup_and_get_member s member stats now
  else
    (member, update_member_stats stats now, s)

/-- `ObjectPool.get_pool_size`: number of queued members. -/
def get_pool_size (s : PoolState) : Nat :=
  s.pool.length

/-- `ObjectPool.get_member`: when the queue is empty, fabricate a new
member with fresh stats; otherwise dequeue one and, when `pre_check`
is set, run it through the validity policy. -/
def get_member (s : PoolState) (now : Nat) : Nat × MemberStats × PoolState :=
  match s.pool with
  | [] =>
    (s.next_instance, get_default_stats true now,
      { s with next_instance := s.next_instance + 1 })
  | (member, stats) :: rest =>
    if s.cfg.pre_check then
      check_and_get_member { s with pool := rest } member stats now
    else
      (member, stats, { s with pool := rest })

/-- `ObjectPool.queue_member`: when `post_check` is set, run the
released pair through the validity policy; enqueue the resulting pair. -/
def queue_member (s : PoolState) (member : Nat) (stats : MemberStats)
    (now : Nat) : PoolState :=
  let (m, st, s1) :=
    if s.cfg.post_check then check_and_get_member s member stats now
    else (member, stats, s)
  { s1 with pool := s1.pool ++ [(m, st)] }

/-- The loop of `ObjectPool.__create_pool`: fabricate `n` members with
fresh stats and enqueue them. -/
def create_pool_fill (s : PoolState) (now : Nat) : Nat → PoolState
  | 0 => s
  | n + 1 =>
    create_pool_fill
      { s with
        pool := s.pool ++ [(s.next_instance, get_default_stats true now)],
        next_instance := s.next_instance + 1 }
      now n

/-- `ObjectPool.__init__`: reject a negative `max_pool_object`,
otherwise start from an empty queue and, unless `lazy`, eagerly fill
`max_pool_object` members via `__create_pool`. -/
def mk_pool (k : Klass) (cfg : PoolConfig) (now : Nat) : Except String PoolState :=
  if cfg.max_pool_object < 0 then
    Except.error "max_members should not be negative number."
  else
    let base : PoolState :=
      { klass := k, cfg := cfg, pool := [], next_instance := 0, cleanup_log := [] }
    if cfg.lazy then Except.ok base
    else Except.ok (create_pool_fill base now cfg.max_pool_object.toNat)

/-- The drain loop of `ObjectPool.destroy`: dequeue every member and
pass it to `__member_cleanup`, accumulating the cleanup log. -/
def destroy_drain_log (has_cleanup : Bool) (acc : List (Nat × MemberStats)) :
    List (Nat × MemberStats) → List (Nat × MemberStats)
  | [] => acc
  | (member, stats) :: rest =>
    destroy_drain_log has_cleanup
      (if has_cleanup then acc ++ [(member, stats)] else acc) rest

/-- Effect of `ObjectPool.destroy` on the pool state: the queue is
drained, each dequeued member passing through `__member_cleanup`. -/
def destroy_pool_state (s : PoolState) : PoolState :=
  { s with pool := [],
           cleanup_log := destroy_drain_log s.cfg.has_cleanup_func s.cleanup_log s.pool }

/-- One borrow/release cycle against the pool: `get_member` followed by
`queue_member` on the obtained pair, at a single instant `now`. -/
def borrow_release_cycle (s : PoolState) (now : Nat) : PoolState :=
  let (m, st, s1) := get_member s now
  queue_member s1 m st now

/-- Iterated borrow/release cycles. -/
def borrow_release_cycles (s : PoolState) (now : Nat) : Nat → PoolState
  | 0 => s
  | n + 1 => borrow_release_cycles (borrow_release_cycle s now) now n

/-- A registered pool-engine instance: `pid` is its object identity,
`st` its state. -/
structure PoolRec where
  pid : Nat
  st : PoolState

/-- Dictionary lookup in the registry association list, keyed by class
name. -/
def registry_lookup (name : String) : List (String × PoolRec) → Option PoolRec
  | [] => none
  | (k, v) :: rest => if k = name then some v else registry_lookup name rest

/-- `SingletonMetaPoolRegistry.__pool_registry` together with the
allocation counter for pool-engine identities. -/
structure Registry where
  pool_registry : List (String × PoolRec)
  next_pid : Nat

/-- `SingletonMetaPoolRegistry._remove_pool`: pop the entry keyed by
`klass.__name__`, if any. -/
def remove_pool (r : Registry) (k : Klass) : Registry :=
  { r with pool_registry := r.pool_registry.filter (fun e => e.1 ≠ k.name) }

/-- `SingletonMetaPoolRegistry._pool_exists`: is `klass.__name__` a key
of the registry? -/
def pool_exists (r : Registry) (k : Klass) : Bool :=
  (registry_lookup k.name r.pool_registry).isSome

/-- The tail of `SingletonMetaPoolRegistry.__call__` after the optional
forced removal: return a registered pool unchanged when one exists,
else construct a pool via `ObjectPool.__init__` (which may fail),
register it under the class name and return it. -/
def get_or_create_reg (r1 : Registry) (k : Klass) (cfg : PoolConfig)
    (now : Nat) : Except String (PoolRec × Registry) :=
  match registry_lookup k.name r1.pool_registry with
  | some p => Except.ok (p, r1)
  | none =>
    match mk_pool k cfg now with
    | Except.error e => Except.error e
    | Except.ok st =>
      Except.ok ({ pid := r1.next_pid, st := st },
        { pool_registry := (k.name, { pid := r1.next_pid, st := st }) :: r1.pool_registry,
          next_pid := r1.next_pid + 1 })

/-- `SingletonMetaPoolRegistry.__call__`: with `force`, drop any
existing entry first, then look up or construct-and-register. -/
def get_or_create (r : Registry) (k : Klass) (cfg : PoolConfig) (now : Nat)
    (force : Bool) : Except String (PoolRec × Registry) :=
  get_or_create_reg (if force then remove_pool r k else r) k cfg now

/-- `ObjectPool.destroy`: drain the queue with cleanup, then
`_remove_pool(self.klass)` on the registry. -/
def destroy (r : Registry) (s : PoolState) : Registry × PoolState :=
  (remove_pool r s.klass, destroy_pool_state s)

/-- Registry identities are allocated below the counter. -/
def RegistryWF (r : Registry) : Prop :=
  ∀ e ∈ r.pool_registry, e.2.pid < r.next_pid

/-- `Executor.__enter__`: borrow a pair from the pool and retain it. -/
def executor_enter (s : PoolState) (now : Nat) : (Nat × MemberStats) × PoolState :=
  let (m, st, s1) := get_member s now
  ((m, st), s1)

/-- `Executor.__exit__`: release the retained pair via `queue_member`;
the method body ends without `return`, so it returns `None`, which the
`with` statement reads as "do not suppress the exception". -/
def executor_exit (s : PoolState) (pair : Nat × MemberStats) (now : Nat) :
    PoolState × Bool :=
  (queue_member s pair.1 pair.2 now, false)

/-- Semantics of `with pool.get() as (member, stats): body` under the
context-manager protocol: `__enter__` yields the pair, the body runs
(possibly raising), `__exit__` runs on every exit path with the
retained pair, and a raised exception propagates unless `__exit__`
returned a truthy value. -/
def with_pool {E : Type} (s : PoolState) (now : Nat)
    (body : Nat → MemberStats → Except E Unit) : Except E Unit × PoolState :=
  let (pair, s1) := executor_enter s now
  let r := body pair.1 pair.2
  let (s2, suppress) := executor_exit s1 pair now
  (match r with
   | Except.ok u => Except.ok u
   | Except.error e => if suppress then Except.ok () else Except.error e, s2)

/-- C1: the Validity Policy judges a (member, stats) pair invalid iff
the caller-supplied `check_func` returns true, or `max_reusable_count`
is nonzero and the reuse count strictly exceeds it, or
`expire_in_secs` is nonzero and the current time is strictly after
`created_at + expire_in_secs`, an absent `created_at` counting as
immediately expired.  `tSample < tNow` says the clock strictly
advanced between the two `now()` samples the check takes. -/
theorem C1_validity_policy (cfg : PoolConfig) (member : Nat) (stats : MemberStats)
    (tSample tNow : Nat) (h : tSample < tNow) :
    is_invalid_member cfg member stats tSample tNow = true ↔
      ((∃ f, cfg.check_func = some f ∧ f member stats = true) ∨
       (cfg.max_reusable_count ≠ 0 ∧ stats.count > cfg.max_reusable_count) ∨
       (cfg.expire_in_secs ≠ 0 ∧
         stats.created_at.elim True (fun c => tNow > c + cfg.expire_in_secs))) := by
  unfold is_invalid_member internal_invalid_check get_expiry_time
  cases hf : cfg.check_func with
  | some f =>
    cases hb : f member stats <;> cases hc : stats.created_at <;>
      split_ifs with h1 h2 <;> simp_all <;> omega
  | none =>
    cases hc : stats.created_at <;>
      split_ifs with h1 h2 <;> simp_all <;> omega

/-- Closed instance of `C1_validity_policy`: a pair whose reuse count
exceeds `max_reusable_count` at concrete inputs. -/
theorem C1_validity_policy_witness :
    (0 : Nat) < 1 ∧
    (is_invalid_member
        { max_pool_object := 1, max_reusable_count := 1, expire_in_secs := 0,
          check_func := none, has_cleanup_func := false, lazy := false,
          pre_check := false, post_check := true }
        0 { count := 2, new := false, created_at := some 0, last_used := 0 } 0 1 = true ↔
      ((∃ f, ({ max_pool_object := 1, max_reusable_count := 1, expire_in_secs := 0,
                check_func := none, has_cleanup_func := false, lazy := false,
                pre_check := false, post_check := true } : PoolConfig).check_func = some f ∧
          f 0 { count := 2, new := false, created_at := some 0, last_used := 0 } = true) ∨
       ((1 : Nat) ≠ 0 ∧ (2 : Nat) > 1) ∨
       ((0 : Nat) ≠ 0 ∧ (some 0 : Option Nat).elim True (fun c => 1 > c + 0)))) :=
  ⟨by decide,
   C1_validity_policy
     { max_pool_object := 1, max_reusable_count := 1, expire_in_secs := 0,
       check_func := none, has_cleanup_func := false, lazy := false,
       pre_check := false, post_check := true }
     0 { count := 2, new := false, created_at := some 0, last_used := 0 } 0 1 (by decide)⟩

/-- C3: when the Validity Policy judges the pair valid,
`__check_and_get_member` returns the same member, the same pool state,
and stats with `count` incremented, `new` cleared, `last_used` stamped
and `created_at` unchanged. -/
theorem C3_valid_update (s : PoolState) (member : Nat) (stats : MemberStats) (now : Nat)
    (h : is_invalid_member s.cfg member stats now now = false) :
    check_and_get_member s member stats now =
      (member,
       { count := stats.count + 1, new := false, created_at := stats.created_at,
         last_used := now }, s) := by
  unfold check_and_get_member update_member_stats
  simp [h]

/-- Closed instance of `C3_valid_update` at concrete inputs. -/
theorem C3_valid_update_witness :
    is_invalid_member
        ({ klass := { id := 0, name := "Browser" },
           cfg := { max_pool_object := 1, max_reusable_count := 20, expire_in_secs := 600,
                    check_func := none, has_cleanup_func := false, lazy := false,
                    pre_check := false, post_check := true },
           pool := [], next_instance := 0, cleanup_log := [] } : PoolState).cfg
        7 { count := 3, new := false, created_at := some 2, last_used := 2 } 5 5 = false ∧
    check_and_get_member
        { klass := { id := 0, name := "Browser" },
          cfg := { max_pool_object := 1, max_reusable_count := 20, expire_in_secs := 600,
                   check_func := none, has_cleanup_func := false, lazy := false,
                   pre_check := false, post_check := true },
          pool := [], next_instance := 0, cleanup_log := [] }
        7 { count := 3, new := false, created_at := some 2, last_used := 2 } 5 =
      (7, { count := 3 + 1, new := false, created_at := some 2, last_used := 5 },
        { klass := { id := 0, name := "Browser" },
          cfg := { max_pool_object := 1, max_reusable_count := 20, expire_in_secs := 600,
                   check_func := none, has_cleanup_func := false, lazy := false,
                   pre_check := false, post_check := true },
          pool := [], next_instance := 0, cleanup_log := [] }) :=
  ⟨rfl,
   C3_valid_update
     { klass := { id := 0, name := "Browser" },
       cfg := { max_pool_object := 1, max_reusable_count := 20, expire_in_secs := 600,
                check_func := none, has_cleanup_func := false, lazy := false,
                pre_check := false, post_check := true },
       pool := [], next_instance := 0, cleanup_log := [] }
     7 { count := 3, new := false, created_at := some 2, last_used := 2 } 5 rfl⟩

/-- C4: on an empty queue, `get_member` fabricates a brand-new member
(a fresh instance) and returns it with fresh stats (`count = 0`,
`new = true`); no validity check touches it — the result does not
depend on `pre_check` — and the operation is total, never failing by
exhaustion. -/
theorem C4_empty_borrow (s : PoolState) (now : Nat) (h : s.pool = []) :
    get_member s now =
      (s.next_instance,
       { count := 0, new := true, created_at := some now, last_used := now },
       { s with next_instance := s.next_instance + 1 }) := by
  obtain ⟨k, c, p, ni, cl⟩ := s
  cases p with
  | nil => rfl
  | cons a l => exact absurd h (by simp)

/-- Closed instance of `C4_empty_borrow`: an empty pool with
`pre_check = true` still returns the fabricated member unchecked. -/
theorem C4_empty_borrow_witness :
    ({ klass := { id := 0, name := "Browser" },
       cfg := { max_pool_object := 0, max_reusable_count := 20, expire_in_secs := 600,
                check_func := none, has_cleanup_func := false, lazy := true,
                pre_check := true, post_check := true },
       pool := [], next_instance := 4, cleanup_log := [] } : PoolState).pool = [] ∧
    get_member
        { klass := { id := 0, name := "Browser" },
          cfg := { max_pool_object := 0, max_reusable_count := 20, expire_in_secs := 600,
                   check_func := none, has_cleanup_func := false, lazy := true,
                   pre_check := true, post_check := true },
          pool := [], next_instance := 4, cleanup_log := [] } 9 =
      (4, { count := 0, new := true, created_at := some 9, last_used := 9 },
        { klass := { id := 0, name := "Browser" },
          cfg := { max_pool_object := 0, max_reusable_count := 20, expire_in_secs := 600,
                   check_func := none, has_cleanup_func := false, lazy := true,
                   pre_check := true, post_check := true },
          pool := [], next_instance := 5, cleanup_log := [] }) :=
  ⟨rfl,
   C4_empty_borrow
     { klass := { id := 0, name := "Browser" },
       cfg := { max_pool_object := 0, max_reusable_count := 20, expire_in_secs := 600,
                check_func := none, has_cleanup_func := false, lazy := true,
                pre_check := true, post_check := true },
       pool := [], next_instance := 4, cleanup_log := [] } 9 rfl⟩

/-- C8: the scoped borrow releases on every exit path — the final pool
state is `queue_member` applied to exactly the pair `__enter__`
obtained — and the body's outcome, exception included, is propagated
unchanged (never suppressed, since `__exit__` returns `None`). -/
theorem C8_scoped_release (E : Type) (s : PoolState) (now : Nat)
    (body : Nat → MemberStats → Except E Unit) :
    (with_pool s now body).1 = body (executor_enter s now).1.1 (executor_enter s now).1.2 ∧
    (with_pool s now body).2 =
      queue_member (executor_enter s now).2 (executor_enter s now).1.1
        (executor_enter s now).1.2 now := by
  constructor
  · cases hr : body (executor_enter s now).1.1 (executor_enter s now).1.2 <;>
      simp [with_pool, executor_exit, hr]
  · rfl

/-- The eager fill appends exactly `n` members. -/
theorem create_pool_fill_length (now : Nat) :
    ∀ (n : Nat) (s : PoolState),
      (create_pool_fill s now n).pool.length = s.pool.length + n := by
  intro n
  induction n with
  | zero => intro s; rfl
  | succ n ih =>
    intro s
    rw [create_pool_fill, ih]
    simp
    omega

/-- Every member the eager fill enqueues carries fresh default stats. -/
theorem create_pool_fill_stats (now : Nat) :
    ∀ (n : Nat) (s : PoolState),
      (∀ p ∈ s.pool, p.2 = get_default_stats true now) →
      ∀ p ∈ (create_pool_fill s now n).pool, p.2 = get_default_stats true now := by
  intro n
  induction n with
  | zero => intro s hs; exact hs
  | succ n ih =>
    intro s hs
    rw [create_pool_fill]
    apply ih
    intro p hp
    rcases List.mem_append.mp hp with hl | hr
    · exact hs p hl
    · rw [List.mem_singleton] at hr
      rw [hr]

/-- C5: with `lazy = false` and a nonnegative `max_pool_object = N`,
construction succeeds and leaves exactly `N` queued members, each with
fresh stats (`count = 0`, `new = true`); for `N = 0` the fill loop
runs zero times and the pool starts empty. -/
theorem C5_eager_fill (k : Klass) (cfg : PoolConfig) (now : Nat)
    (hlazy : cfg.lazy = false) (h0 : 0 ≤ cfg.max_pool_object) :
    ∃ s, mk_pool k cfg now = Except.ok s ∧
      get_pool_size s = cfg.max_pool_object.toNat ∧
      ∀ p ∈ s.pool,
        p.2 = { count := 0, new := true, created_at := some now, last_used := now } := by
  refine ⟨create_pool_fill
      { klass := k, cfg := cfg, pool := [], next_instance := 0, cleanup_log := [] }
      now cfg.max_pool_object.toNat, ?_, ?_, ?_⟩
  · unfold mk_pool
    rw [if_neg (by omega), hlazy]
    rfl
  · unfold get_pool_size
    rw [create_pool_fill_length]
    simp
  · intro p hp
    have := create_pool_fill_stats now cfg.max_pool_object.toNat
      { klass := k, cfg := cfg, pool := [], next_instance := 0, cleanup_log := [] }
      (by intro q hq; simp at hq) p hp
    rw [this]
    rfl

/-- Configuration for the reuse-count-expiry scenario: a single-member
pool with `max_reusable_count = R`, the default `post_check = true`
and `pre_check = false`, a cleanup hook provided, no `check_func`. -/
def c2_cfg (R : Nat) : PoolConfig :=
  { max_pool_object := 1, max_reusable_count := R, expire_in_secs := 600,
    check_func := none, has_cleanup_func := true, lazy := false,
    pre_check := false, post_check := true }

/-- In the reuse-count scenario, a cycle on a member whose count has
not yet exceeded `R` keeps the member and increments its count. -/
theorem c2_cycle_valid (R t m ni : Nat) (k : Klass)
    (cl : List (Nat × MemberStats)) (cnt : Nat) (b : Bool) (hcnt : cnt ≤ R) :
    borrow_release_cycle
      { klass := k, cfg := c2_cfg R,
        pool := [(m, { count := cnt, new := b, created_at := some t, last_used := t })],
        next_instance := ni, cleanup_log := cl } t
    = { klass := k, cfg := c2_cfg R,
        pool := [(m, { count := cnt + 1, new := false, created_at := some t, last_used := t })],
        next_instance := ni, cleanup_log := cl } := by
  have hinv : is_invalid_member (c2_cfg R) m
      { count := cnt, new := b, created_at := some t, last_used := t } t t = false := by
    unfold is_invalid_member internal_invalid_check get_expiry_time c2_cfg
    rw [if_neg (by simp; omega), if_neg (by simp)]
    rfl
  unfold borrow_release_cycle get_member queue_member check_and_get_member
  simp only [c2_cfg] at hinv ⊢
  simp [hinv, update_member_stats]

/-- Iterating valid cycles adds the cycle count to the reuse count. -/
theorem c2_cycles_valid (R t m ni : Nat) (k : Klass)
    (cl : List (Nat × MemberStats)) :
    ∀ (j cnt : Nat), cnt + j ≤ R + 1 →
    borrow_release_cycles
      { klass := k, cfg := c2_cfg R,
        pool := [(m, { count := cnt, new := false, created_at := some t, last_used := t })],
        next_instance := ni, cleanup_log := cl } t j
    = { klass := k, cfg := c2_cfg R,
        pool := [(m, { count := cnt + j, new := false, created_at := some t, last_used := t })],
        next_instance := ni, cleanup_log := cl } := by
  intro j
  induction j with
  | zero => intro cnt hcnt; rfl
  | succ j ih =>
    intro cnt hcnt
    rw [borrow_release_cycles, c2_cycle_valid R t m ni k cl cnt false (by omega),
      ih (cnt + 1) (by omega)]
    have : cnt + 1 + j = cnt + (j + 1) := by omega
    rw [this]

/-- Unfolding an iterated cycle from the back. -/
theorem borrow_release_cycles_succ (t : Nat) :
    ∀ (n : Nat) (s : PoolState),
      borrow_release_cycles s t (n + 1) =
        borrow_release_cycle (borrow_release_cycles s t n) t := by
  intro n
  induction n with
  | zero => intro s; rfl
  | succ n ih =>
    intro s
    rw [show borrow_release_cycles s t (n + 1 + 1) =
        borrow_release_cycles (borrow_release_cycle s t) t (n + 1) from rfl, ih]
    rfl

/-- C2 (amended): in a single-member pool with `max_reusable_count = R ≥ 1`
and `post_check = true`, starting from a fresh member, it takes `R + 2`
borrow/release cycles (not `R + 1`) until the member is replaced by a
new instance, with the cleanup hook invoked exactly once on the old
member (whose count has reached `R + 1` when replaced). -/
theorem C2_reuse_count_expiry (R t : Nat) (k : Klass) (hR : 1 ≤ R) (s : PoolState)
    (hs : mk_pool k (c2_cfg R) t = Except.ok s) :
    borrow_release_cycles s t (R + 2) =
      { klass := k, cfg := c2_cfg R,
        pool := [(1, { count := 0, new := false, created_at := some t, last_used := t })],
        next_instance := 2,
        cleanup_log := [(0, { count := R + 1, new := false, created_at := some t,
                              last_used := t })] } := by
  have hs2 : s = { klass := k, cfg := c2_cfg R,
                   pool := [(0, { count := 0, new := true, created_at := some t,
                                  last_used := t })],
                   next_instance := 1, cleanup_log := [] } := by
    unfold mk_pool c2_cfg at hs
    simp at hs
    rw [← hs]
    rfl
  subst hs2
  rw [show borrow_release_cycles _ t (R + 2) =
      borrow_release_cycles (borrow_release_cycle _ t) t (R + 1) from rfl,
    c2_cycle_valid R t 0 1 k [] 0 true (by omega),
    borrow_release_cycles_succ t R,
    c2_cycles_valid R t 0 1 k [] R 1 (by omega)]
  have hcomm : 1 + R = R + 1 := by omega
  rw [hcomm]
  have hinv : is_invalid_member (c2_cfg R) 0
      { count := R + 1, new := false, created_at := some t, last_used := t } t t = true := by
    unfold is_invalid_member internal_invalid_check get_expiry_time c2_cfg
    rw [if_pos (by simp; omega)]
    rfl
  unfold borrow_release_cycle get_member queue_member check_and_get_member
    cleanup_and_get_member member_cleanup get_default_stats
  simp only [c2_cfg] at hinv ⊢
  simp [hinv]

/-- The original C2 is false at `R = 1`: after `R + 1 = 2` cycles the
queue still holds the original member `0` (not replaced) and the
cleanup hook has never run. -/
theorem C2_reuse_count_expiry_cex :
    mk_pool { id := 0, name := "Browser" } (c2_cfg 1) 0 =
      Except.ok
        { klass := { id := 0, name := "Browser" }, cfg := c2_cfg 1,
          pool := [(0, { count := 0, new := true, created_at := some 0, last_used := 0 })],
          next_instance := 1, cleanup_log := [] } ∧
    (borrow_release_cycles
        { klass := { id := 0, name := "Browser" }, cfg := c2_cfg 1,
          pool := [(0, { count := 0, new := true, created_at := some 0, last_used := 0 })],
          next_instance := 1, cleanup_log := [] } 0 (1 + 1)).pool.map Prod.fst = [0] ∧
    (borrow_release_cycles
        { klass := { id := 0, name := "Browser" }, cfg := c2_cfg 1,
          pool := [(0, { count := 0, new := true, created_at := some 0, last_used := 0 })],
          next_instance := 1, cleanup_log := [] } 0 (1 + 1)).cleanup_log = [] :=
  ⟨rfl, rfl, rfl⟩

/-- Closed instance of `C2_reuse_count_expiry` at `R = 1`. -/
theorem C2_reuse_count_expiry_witness :
    1 ≤ 1 ∧
    borrow_release_cycles
        { klass := { id := 0, name := "Browser" }, cfg := c2_cfg 1,
          pool := [(0, { count := 0, new := true, created_at := some 0, last_used := 0 })],
          next_instance := 1, cleanup_log := [] } 0 (1 + 2) =
      { klass := { id := 0, name := "Browser" }, cfg := c2_cfg 1,
        pool := [(1, { count := 0, new := false, created_at := some 0, last_used := 0 })],
        next_instance := 2,
        cleanup_log := [(0, { count := 1 + 1, new := false, created_at := some 0,
                              last_used := 0 })] } :=
  ⟨by decide,
   C2_reuse_count_expiry 1 0 { id := 0, name := "Browser" } (by decide)
     { klass := { id := 0, name := "Browser" }, cfg := c2_cfg 1,
       pool := [(0, { count := 0, new := true, created_at := some 0, last_used := 0 })],
       next_instance := 1, cleanup_log := [] } rfl⟩

/-- Closed instance of `C5_eager_fill`: a three-member eager pool. -/
theorem C5_eager_fill_witness :
    ({ max_pool_object := 3, max_reusable_count := 20, expire_in_secs := 600,
       check_func := none, has_cleanup_func := false, lazy := false,
       pre_check := false, post_check := true } : PoolConfig).lazy = false ∧
    (0 : Int) ≤ 3 ∧
    ∃ s, mk_pool { id := 0, name := "Browser" }
        { max_pool_object := 3, max_reusable_count := 20, expire_in_secs := 600,
          check_func := none, has_cleanup_func := false, lazy := false,
          pre_check := false, post_check := true } 7 = Except.ok s ∧
      get_pool_size s = (3 : Int).toNat ∧
      ∀ p ∈ s.pool,
        p.2 = { count := 0, new := true, created_at := some 7, last_used := 7 } :=
  ⟨rfl, by decide,
   C5_eager_fill { id := 0, name := "Browser" }
     { max_pool_object := 3, max_reusable_count := 20, expire_in_secs := 600,
       check_func := none, has_cleanup_func := false, lazy := false,
       pre_check := false, post_check := true } 7 rfl (by decide)⟩

/-- A successful lookup means the pair is an entry of the registry. -/
theorem registry_lookup_mem {name : String} {p : PoolRec} :
    ∀ {es : List (String × PoolRec)},
      registry_lookup name es = some p → (name, p) ∈ es := by
  intro es
  induction es with
  | nil => intro h; exact absurd h (by simp [registry_lookup])
  | cons e rest ih =>
    obtain ⟨key, v⟩ := e
    intro h
    rw [registry_lookup] at h
    split_ifs at h with hk
    · rw [Option.some.injEq] at h
      rw [← hk, ← h]
      exact List.mem_cons_self _ _
    · exact List.mem_cons_of_mem _ (ih h)

/-- After filtering out a name, looking that name up finds nothing. -/
theorem registry_lookup_filter_ne (name : String) :
    ∀ (es : List (String × PoolRec)),
      registry_lookup name (es.filter (fun e => e.1 ≠ name)) = none := by
  intro es
  induction es with
  | nil => rfl
  | cons e rest ih =>
    obtain ⟨key, v⟩ := e
    by_cases hk : key = name
    · simpa [List.filter_cons, hk] using ih
    · simpa [List.filter_cons, hk, registry_lookup] using ih

/-- `ObjectPool.__init__` succeeds whenever `max_pool_object` is
nonnegative. -/
theorem mk_pool_ok (k : Klass) (cfg : PoolConfig) (now : Nat)
    (h : 0 ≤ cfg.max_pool_object) :
    ∃ st, mk_pool k cfg now = Except.ok st := by
  unfold mk_pool
  rw [if_neg (by omega)]
  by_cases hl : cfg.lazy <;> simp [hl]

/-- Removing a class from the registry makes its name unregistered. -/
theorem pool_exists_remove (r : Registry) (k : Klass) :
    pool_exists (remove_pool r k) k = false := by
  unfold pool_exists
  rw [show (remove_pool r k).pool_registry =
      r.pool_registry.filter (fun e => e.1 ≠ k.name) from rfl]
  rw [registry_lookup_filter_ne]
  rfl

/-- C6: when a pool is registered for a class, `get_or_create` without
`force` returns that identical instance and leaves the registry
unchanged, whatever configuration is passed; with `force = true` it
returns an instance distinct from the previous one. -/
theorem C6_registry_idempotence (r : Registry) (k : Klass) (p : PoolRec)
    (cfg cfg2 : PoolConfig) (now now2 : Nat)
    (hWF : RegistryWF r) (hex : registry_lookup k.name r.pool_registry = some p)
    (hcfg2 : 0 ≤ cfg2.max_pool_object) :
    get_or_create r k cfg now false = Except.ok (p, r) ∧
    ∃ p2 r2, get_or_create r k cfg2 now2 true = Except.ok (p2, r2) ∧ p2.pid ≠ p.pid := by
  constructor
  · show get_or_create_reg r k cfg now = Except.ok (p, r)
    unfold get_or_create_reg
    rw [hex]
  · obtain ⟨st, hst⟩ := mk_pool_ok k cfg2 now2 hcfg2
    have hpid : p.pid < r.next_pid := hWF _ (registry_lookup_mem hex)
    refine ⟨{ pid := (remove_pool r k).next_pid, st := st },
      { pool_registry := (k.name, { pid := (remove_pool r k).next_pid, st := st })
          :: (remove_pool r k).pool_registry,
        next_pid := (remove_pool r k).next_pid + 1 }, ?_, by
      show r.next_pid ≠ p.pid
      omega⟩
    show get_or_create_reg (remove_pool r k) k cfg2 now2 = _
    unfold get_or_create_reg
    rw [show (remove_pool r k).pool_registry =
        r.pool_registry.filter (fun e => e.1 ≠ k.name) from rfl]
    rw [registry_lookup_filter_ne k.name r.pool_registry, hst]

/-- C7: `destroy` on a pool whose cleanup hook is provided invokes the
hook exactly once per queued member in order, empties the queue, and
deregisters the pool, after which `get_or_create` for the same class
goes through construction and returns a freshly allocated engine
distinct from every previously registered one. -/
theorem C7_destroy (r : Registry) (s : PoolState) (cfg : PoolConfig) (now : Nat)
    (hclean : s.cfg.has_cleanup_func = true) (hWF : RegistryWF r)
    (hcfg : 0 ≤ cfg.max_pool_object) :
    (destroy r s).2.cleanup_log = s.cleanup_log ++ s.pool ∧
    (destroy r s).2.pool = [] ∧
    pool_exists (destroy r s).1 s.klass = false ∧
    ∃ p2 r2, get_or_create (destroy r s).1 s.klass cfg now false = Except.ok (p2, r2) ∧
      ∀ e ∈ r.pool_registry, p2.pid ≠ e.2.pid := by
  have hdrain : ∀ (l acc : List (Nat × MemberStats)),
      destroy_drain_log true acc l = acc ++ l := by
    intro l
    induction l with
    | nil => intro acc; simp [destroy_drain_log]
    | cons x rest ih =>
      intro acc
      obtain ⟨m, st⟩ := x
      rw [destroy_drain_log, if_pos rfl, ih]
      simp
  refine ⟨?_, rfl, ?_, ?_⟩
  · show destroy_drain_log s.cfg.has_cleanup_func s.cleanup_log s.pool =
      s.cleanup_log ++ s.pool
    rw [hclean, hdrain]
  · show (registry_lookup s.klass.name
      ((remove_pool r s.klass).pool_registry)).isSome = false
    rw [show (remove_pool r s.klass).pool_registry =
        r.pool_registry.filter (fun e => e.1 ≠ s.klass.name) from rfl]
    rw [registry_lookup_filter_ne]
    rfl
  · obtain ⟨st, hst⟩ := mk_pool_ok s.klass cfg now hcfg
    refine ⟨{ pid := r.next_pid, st := st },
      { pool_registry := (s.klass.name, { pid := r.next_pid, st := st })
          :: (remove_pool r s.klass).pool_registry,
        next_pid := r.next_pid + 1 }, ?_, ?_⟩
    · show get_or_create_reg (remove_pool r s.klass) s.klass cfg now = _
      unfold get_or_create_reg
      rw [show (remove_pool r s.klass).pool_registry =
          r.pool_registry.filter (fun e => e.1 ≠ s.klass.name) from rfl]
      rw [registry_lookup_filter_ne, hst]
      rfl
    · intro e he
      have := hWF e he
      show r.next_pid ≠ e.2.pid
      omega

/-- C9: the registry is keyed by `__name__`, not by class identity:
for two distinct classes with the same name, `get_or_create` for the
second returns the pool registered for the first, and `pool_exists`
answers the same for both. -/
theorem C9_name_keyed_registry (k1 k2 : Klass) (r : Registry) (p : PoolRec)
    (cfg : PoolConfig) (now : Nat) (hname : k1.name = k2.name) (hne : k1 ≠ k2)
    (hex : registry_lookup k1.name r.pool_registry = some p) :
    get_or_create r k2 cfg now false = Except.ok (p, r) ∧
    pool_exists r k1 = pool_exists r k2 := by
  constructor
  · show get_or_create_reg r k2 cfg now = Except.ok (p, r)
    unfold get_or_create_reg
    rw [← hname, hex]
  · unfold pool_exists
    rw [hname]

/-- C10: `destroy` deregisters by class name unconditionally — after a
forced recreation registers a replacement pool, destroying the stale
old pool state removes the replacement's registry entry, so
`pool_exists` turns false although the replacement was never
destroyed. -/
theorem C10_stale_destroy (r : Registry) (k : Klass) (sOld : PoolState)
    (cfg : PoolConfig) (now : Nat) (hk : sOld.klass = k)
    (hcfg : 0 ≤ cfg.max_pool_object) :
    ∃ pNew r2, get_or_create r k cfg now true = Except.ok (pNew, r2) ∧
      pool_exists r2 k = true ∧
      pool_exists (destroy r2 sOld).1 k = false := by
  obtain ⟨st, hst⟩ := mk_pool_ok k cfg now hcfg
  refine ⟨{ pid := (remove_pool r k).next_pid, st := st },
    { pool_registry := (k.name, { pid := (remove_pool r k).next_pid, st := st })
        :: (remove_pool r k).pool_registry,
      next_pid := (remove_pool r k).next_pid + 1 }, ?_, ?_, ?_⟩
  · show get_or_create_reg (remove_pool r k) k cfg now = _
    unfold get_or_create_reg
    rw [show (remove_pool r k).pool_registry =
        r.pool_registry.filter (fun e => e.1 ≠ k.name) from rfl]
    rw [registry_lookup_filter_ne k.name r.pool_registry, hst]
  · unfold pool_exists
    rw [registry_lookup, if_pos rfl]
    rfl
  · show pool_exists (remove_pool _ sOld.klass) k = false
    rw [hk]
    exact pool_exists_remove _ k

/-- Configuration used in the closed registry scenarios. -/
def c6_cfg : PoolConfig :=
  { max_pool_object := 0, max_reusable_count := 20, expire_in_secs := 600,
    check_func := none, has_cleanup_func := false, lazy := true,
    pre_check := false, post_check := true }

/-- A registered pool-engine instance for the C6 scenario. -/
def c6_pool : PoolRec :=
  { pid := 0,
    st := { klass := { id := 0, name := "Browser" }, cfg := c6_cfg, pool := [],
            next_instance := 0, cleanup_log := [] } }

/-- A registry holding exactly the C6 instance. -/
def c6_reg : Registry := { pool_registry := [("Browser", c6_pool)], next_pid := 1 }

/-- Closed instance of `C6_registry_idempotence`. -/
theorem C6_registry_idempotence_witness :
    RegistryWF c6_reg ∧
    registry_lookup (Klass.name { id := 0, name := "Browser" }) c6_reg.pool_registry =
      some c6_pool ∧
    (0 : Int) ≤ c6_cfg.max_pool_object ∧
    (get_or_create c6_reg { id := 0, name := "Browser" } c6_cfg 0 false =
        Except.ok (c6_pool, c6_reg) ∧
      ∃ p2 r2, get_or_create c6_reg { id := 0, name := "Browser" } c6_cfg 1 true =
        Except.ok (p2, r2) ∧ p2.pid ≠ c6_pool.pid) :=
  ⟨by intro e he; simp only [c6_reg, List.mem_singleton] at he; subst he; decide,
   rfl, by decide,
   C6_registry_idempotence c6_reg { id := 0, name := "Browser" } c6_pool c6_cfg c6_cfg 0 1
     (by intro e he; simp only [c6_reg, List.mem_singleton] at he; subst he; decide)
     rfl (by decide)⟩

/-- Configuration used in the closed destroy scenario. -/
def c7_cfg : PoolConfig :=
  { max_pool_object := 1, max_reusable_count := 20, expire_in_secs := 600,
    check_func := none, has_cleanup_func := true, lazy := false,
    pre_check := false, post_check := true }

/-- A pool with two queued members and a cleanup hook, for C7. -/
def c7_state : PoolState :=
  { klass := { id := 0, name := "Browser" }, cfg := c7_cfg,
    pool := [(0, get_default_stats true 0), (1, get_default_stats true 0)],
    next_instance := 2, cleanup_log := [] }

/-- An empty registry for the C7 scenario. -/
def c7_reg : Registry := { pool_registry := [], next_pid := 0 }

/-- Closed instance of `C7_destroy`: both queued members are cleaned
up, the queue empties and the class becomes unregistered. -/
theorem C7_destroy_witness :
    c7_state.cfg.has_cleanup_func = true ∧
    RegistryWF c7_reg ∧
    (0 : Int) ≤ c7_cfg.max_pool_object ∧
    ((destroy c7_reg c7_state).2.cleanup_log = c7_state.cleanup_log ++ c7_state.pool ∧
     (destroy c7_reg c7_state).2.pool = [] ∧
     pool_exists (destroy c7_reg c7_state).1 c7_state.klass = false ∧
     ∃ p2 r2, get_or_create (destroy c7_reg c7_state).1 c7_state.klass c7_cfg 0 false =
        Except.ok (p2, r2) ∧
       ∀ e ∈ c7_reg.pool_registry, p2.pid ≠ e.2.pid) :=
  ⟨rfl, by intro e he; exact absurd he (by simp [c7_reg]), by decide,
   C7_destroy c7_reg c7_state c7_cfg 0 rfl
     (by intro e he; exact absurd he (by simp [c7_reg])) (by decide)⟩

/-- A registered pool-engine instance for the C9 scenario. -/
def c9_pool : PoolRec :=
  { pid := 0,
    st := { klass := { id := 0, name := "Browser" }, cfg := c6_cfg, pool := [],
            next_instance := 0, cleanup_log := [] } }

/-- A registry holding exactly the C9 instance, registered by the first
of two same-named classes. -/
def c9_reg : Registry := { pool_registry := [("Browser", c9_pool)], next_pid := 1 }

/-- Closed instance of `C9_name_keyed_registry`: two distinct classes
sharing the name "Browser". -/
theorem C9_name_keyed_registry_witness :
    Klass.name { id := 0, name := "Browser" } = Klass.name { id := 1, name := "Browser" } ∧
    ({ id := 0, name := "Browser" } : Klass) ≠ { id := 1, name := "Browser" } ∧
    registry_lookup (Klass.name { id := 0, name := "Browser" }) c9_reg.pool_registry =
      some c9_pool ∧
    (get_or_create c9_reg { id := 1, name := "Browser" } c6_cfg 0 false =
        Except.ok (c9_pool, c9_reg) ∧
      pool_exists c9_reg { id := 0, name := "Browser" } =
        pool_exists c9_reg { id := 1, name := "Browser" }) :=
  ⟨rfl, by decide, rfl,
   C9_name_keyed_registry { id := 0, name := "Browser" } { id := 1, name := "Browser" }
     c9_reg c9_pool c6_cfg 0 rfl (by decide) rfl⟩

/-- A stale pool state for the C10 scenario, belonging to the class
about to be force-recreated. -/
def c10_state : PoolState :=
  { klass := { id := 0, name := "Browser" }, cfg := c6_cfg, pool := [],
    next_instance := 0, cleanup_log := [] }

/-- A registry holding the original entry for the C10 class. -/
def c10_reg : Registry :=
  { pool_registry := [("Browser", { pid := 0, st := c10_state })], next_pid := 1 }

/-- Closed instance of `C10_stale_destroy`. -/
theorem C10_stale_destroy_witness :
    c10_state.klass = ({ id := 0, name := "Browser" } : Klass) ∧
    (0 : Int) ≤ c6_cfg.max_pool_object ∧
    (∃ pNew r2, get_or_create c10_reg { id := 0, name := "Browser" } c6_cfg 0 true =
        Except.ok (pNew, r2) ∧
      pool_exists r2 { id := 0, name := "Browser" } = true ∧
      pool_exists (destroy r2 c10_state).1 { id := 0, name := "Browser" } = false) :=
  ⟨rfl, by decide,
   C10_stale_destroy c10_reg { id := 0, name := "Browser" } c10_state c6_cfg 0
     rfl (by decide)⟩
